import Mathlib

/-!
Verification of the kolibri `IconButton` widget (`src/iconbutton.rs`) and its
styling data (`src/style.rs`) against the repository's specification.

The embedding is value-level: the widget's `draw` method is a pure function
from (style, widget configuration, per-frame environment, drawing-sink
behaviour) to an explicit outcome carrying the issued draw primitives, the
final contents of the borrowed smartstate cell, and the returned `Response`.

The `smartstate` and `ui` modules of the repository are not among the staged
source files; the types they provide (`Smartstate`, `Container`,
`Interaction`, `Response`, `allocate_space`) are modelled from the
specification's description of them, as noted on each definition.
-/

namespace Kolibri

/-- 2D pixel size (`embedded_graphics::geometry::Size`, width and height). -/
structure Size where
  width : Nat
  height : Nat
deriving DecidableEq

/-- 2D pixel coordinate (`embedded_graphics::geometry::Point`). -/
structure Point where
  x : Int
  y : Int
deriving DecidableEq

/-- Axis-aligned rectangle (`embedded_graphics::primitives::Rectangle`). -/
structure Rectangle where
  top_left : Point
  size : Size
deriving DecidableEq

/-- Modelled from the spec: the per-widget interaction outcome enumeration
(`Interaction` of the absent `ui` module; §3 "Interaction outcome" lists
Idle, Hovered, Pressed, Dragged, Released). `iconbutton.rs` matches on the
constructors `Click`, `Drag`, `Release`, `Hover`, `None`, each but `None`
carrying a pointer position. -/
inductive Interaction where
  | click (p : Point)
  | drag (p : Point)
  | release (p : Point)
  | hover (p : Point)
  | none
deriving DecidableEq

/-- `matches!(interaction, Interaction::Release(_))` (iconbutton.rs line 375). -/
def Interaction.isRelease : Interaction → Bool
  | .release _ => true
  | _ => false

/-- `matches!(interaction, Interaction::Click(_) | Interaction::Drag(_))`
(iconbutton.rs lines 376-379). -/
def Interaction.isClickOrDrag : Interaction → Bool
  | .click _ => true
  | .drag _ => true
  | _ => false

/-- Modelled from the spec: `Smartstate` (§3), a tagged value with variants
`Unset` (no prior value) and a tagged small integer code
(`Smartstate::state(n)` in iconbutton.rs). -/
inductive Smartstate where
  | unset
  | state (code : Nat)
deriving DecidableEq

/-- Modelled from the spec: equality test on smartstate values (§3): two
tagged values are equal iff codes match exactly; any comparison against
`Unset` must force redraw, so `Unset` compares unequal to everything. -/
def Smartstate.eqState : Smartstate → Smartstate → Bool
  | .state a, .state b => a == b
  | _, _ => false

/-- Modelled from the spec: a `Container` (§3) either holds no backing store
(`none`, the "always redraw" default) or borrows an externally owned
smartstate cell; here a borrowed cell is represented by its current value. -/
def Container := Option Smartstate

/-- Modelled from the spec: `Container::eq_option(&self, other)` compares the
borrowed cell's current value (`inner`) with a previously cloned value
(`other`); an empty container "reports changed" for any comparison, so any
`none` on either side yields `false`. -/
def eqOption (inner other : Option Smartstate) : Bool :=
  match inner, other with
  | some i, some o => Smartstate.eqState o i
  | _, _ => false

/-- Modelled from the spec: `Container::modify` applies a function to the
borrowed cell when one is present and does nothing on an empty container. -/
def containerModify (c : Option Smartstate) (f : Smartstate → Smartstate) :
    Option Smartstate :=
  c.map f

/-- One interaction-independent style entry (`WidgetStyle` in style.rs). -/
structure WidgetStyle (C : Type) where
  border_width : Nat
  border_color : C
  background_color : C
  foreground_color : C
deriving DecidableEq

/-- Styles per interaction state for one context (`WidgetContextStyle`). -/
structure WidgetContextStyle (C : Type) where
  normal : WidgetStyle C
  hover : WidgetStyle C
  active : WidgetStyle C
  disabled : WidgetStyle C
deriving DecidableEq

/-- Style context selector (`WidgetContext` in style.rs). -/
inductive WidgetContext where
  | normal
  | primary
  | secondary
deriving DecidableEq

/-- Spacing constants (`Spacing` in style.rs). -/
structure Spacing where
  item_spacing : Size
  button_padding : Size
  default_padding : Size
  window_border_padding : Size
deriving DecidableEq

/-- The theme (`Style` in style.rs). `iconbutton.rs` consumes
`primary_widget` and `secondary_widget` through `unwrap_or_else` (lines
386-387), i.e. as optional theme entries, so they are `Option`-typed here;
the `Style` struct as declared in style.rs types them as plain fields, an
inconsistency between the two staged files resolved in favour of the file
the claims are about. The font is external and does not appear; label text
is measured by a bounding box supplied with the label. -/
structure Style (C : Type) where
  background_color : C
  text_color : C
  normal_widget : WidgetContextStyle C
  primary_widget : Option (WidgetContextStyle C)
  secondary_widget : Option (WidgetContextStyle C)
  default_widget_height : Nat
  spacing : Spacing
  button_corner_radius : Nat
deriving DecidableEq

/-- The widget's per-construction configuration (`IconButton` struct,
iconbutton.rs lines 82-90). The attached label is represented by its text
bounding box (glyph metrics are external); the smartstate container holds
the borrowed cell's current value, or `none` when empty. -/
structure IconButton where
  label : Option Size
  smartstate : Option Smartstate
  min_width : Nat
  is_enabled : Bool
  is_modified : Bool
  context : WidgetContext
deriving DecidableEq

/-- `IconButton::new` (iconbutton.rs lines 123-133). -/
def IconButton.new : IconButton :=
  { label := none
    smartstate := none
    min_width := 0
    is_enabled := true
    is_modified := false
    context := .normal }

/-- `IconButton::new_from_type` (iconbutton.rs lines 193-203). -/
def IconButton.new_from_type : IconButton :=
  { label := none
    smartstate := none
    min_width := 0
    is_enabled := true
    is_modified := false
    context := .normal }

/-- `IconButton::label` (iconbutton.rs lines 162-165); primed because the
field has the source's name. -/
def IconButton.label' (b : IconButton) (l : Size) : IconButton :=
  { b with label := some l }

/-- `IconButton::smartstate` (iconbutton.rs lines 234-237): the container is
set to borrow the given cell; primed because the field has the source's
name. -/
def IconButton.smartstate' (b : IconButton) (s : Smartstate) : IconButton :=
  { b with smartstate := some s }

/-- `IconButton::expand_width` (iconbutton.rs lines 246-250). -/
def IconButton.expand_width (b : IconButton) (width : Nat) : IconButton :=
  { b with min_width := width, is_modified := true }

/-- `IconButton::enable` (iconbutton.rs lines 259-263). -/
def IconButton.enable (b : IconButton) (enabled : Bool) : IconButton :=
  { b with is_modified := true, is_enabled := enabled }

/-- `IconButton::context` (iconbutton.rs lines 272-276); primed because the
field has the source's name. -/
def IconButton.context' (b : IconButton) (c : WidgetContext) : IconButton :=
  { b with is_modified := true, context := c }

/-- Style-context resolution (iconbutton.rs lines 384-388): `Normal` reads
`normal_widget`; `Primary` and `Secondary` read their theme entry and fall
back to `normal_widget` when it is absent (`unwrap_or_else`). -/
def resolveContextStyle {C : Type} (s : Style C) : WidgetContext → WidgetContextStyle C
  | .normal => s.normal_widget
  | .primary => s.primary_widget.getD s.normal_widget
  | .secondary => s.secondary_widget.getD s.normal_widget

/-- The smartstate code the widget writes into its cell
(`Smartstate::state(..)` calls of iconbutton.rs lines 390-450): enabled
widgets branch on the interaction (`None`, `Hover`, wildcard for
click/drag/release), disabled widgets ignore the interaction; the modified
flag selects the odd code of each pair. -/
def smartCode (is_enabled is_modified : Bool) (i : Interaction) : Nat :=
  if is_enabled then
    match i with
    | .none => if is_modified then 1 else 2
    | .hover _ => if is_modified then 3 else 4
    | _ => if is_modified then 5 else 6
  else
    if is_modified then 7 else 8

/-- The interaction buckets the draw branches over (the spec's
none/idle, hover, active(pressed/dragged/released)). -/
inductive InteractionBucket where
  | idle
  | hover
  | active
deriving DecidableEq, Fintype

/-- The bucket of an interaction, following the match arms of iconbutton.rs
lines 391-430: `None`, `Hover(_)`, and the wildcard arm. -/
def bucketOf : Interaction → InteractionBucket
  | .none => .idle
  | .hover _ => .hover
  | _ => .active

/-- `smartCode` as a function of the interaction bucket. -/
def smartCodeB (is_enabled is_modified : Bool) (bk : InteractionBucket) : Nat :=
  if is_enabled then
    match bk with
    | .idle => if is_modified then 1 else 2
    | .hover => if is_modified then 3 else 4
    | .active => if is_modified then 5 else 6
  else
    if is_modified then 7 else 8

theorem smartCode_factors (e m : Bool) (i : Interaction) :
    smartCode e m i = smartCodeB e m (bucketOf i) := by
  cases i <;> rfl

/-- Style of a stroked-and-filled primitive
(`embedded_graphics::primitives::PrimitiveStyle`), as assembled by the
`PrimitiveStyleBuilder` calls of iconbutton.rs. -/
structure PrimitiveStyle (C : Type) where
  stroke_color : C
  stroke_width : Nat
  fill_color : C
deriving DecidableEq

/-- The background-rectangle style chosen in iconbutton.rs lines 390-456:
enabled widgets use the context style's `normal`, `hover` or `active` entry
by interaction; disabled widgets always use `disabled`. -/
def rectStyleFor {C : Type} (cs : WidgetContextStyle C) (is_enabled : Bool)
    (i : Interaction) : PrimitiveStyle C :=
  if is_enabled then
    match i with
    | .none =>
      { stroke_color := cs.normal.border_color
        stroke_width := cs.normal.border_width
        fill_color := cs.normal.background_color }
    | .hover _ =>
      { stroke_color := cs.hover.border_color
        stroke_width := cs.hover.border_width
        fill_color := cs.hover.background_color }
    | _ =>
      { stroke_color := cs.active.border_color
        stroke_width := cs.active.border_width
        fill_color := cs.active.background_color }
  else
    { stroke_color := cs.disabled.border_color
      stroke_width := cs.disabled.border_width
      fill_color := cs.disabled.background_color }

/-- The foreground (icon and label) color chosen in iconbutton.rs lines
433-457. -/
def fgColorFor {C : Type} (cs : WidgetContextStyle C) (is_enabled : Bool)
    (i : Interaction) : C :=
  if is_enabled then
    match i with
    | .none => cs.normal.foreground_color
    | .hover _ => cs.hover.foreground_color
    | _ => cs.active.foreground_color
  else
    cs.disabled.foreground_color

/-- Content-driven minimum height (iconbutton.rs lines 302 and 316):
icon height + 2 x button padding height + 2 x border width, plus padding
height + label bounding-box height when a label is present. -/
def contentMinHeight {C : Type} (s : Style C) (b : IconButton) (iconSize : Size) : Nat :=
  let base := iconSize.height + 2 * s.spacing.button_padding.height
    + 2 * s.normal_widget.normal.border_width
  match b.label with
  | some lbl => base + s.spacing.button_padding.height + lbl.height
  | none => base

/-- Content-driven width (iconbutton.rs lines 304 and 317): it starts as the
label-free minimum height (`let mut width = min_height`) and, when a label
is present, grows to the label bounding-box width plus horizontal padding
and borders if that is larger. -/
def contentWidth {C : Type} (s : Style C) (b : IconButton) (iconSize : Size) : Nat :=
  let w0 := iconSize.height + 2 * s.spacing.button_padding.height
    + 2 * s.normal_widget.normal.border_width
  match b.label with
  | some lbl =>
    max w0 (lbl.width + 2 * s.spacing.button_padding.width
      + 2 * s.normal_widget.normal.border_width)
  | none => w0

/-- The widget's computed size (iconbutton.rs lines 302-331): height is the
max of default widget height, row height and content minimum height; width
is the content width, overridden by `min_width` when the content width is
smaller (`if width < self.min_width`). -/
def computeSize {C : Type} (s : Style C) (b : IconButton) (iconSize : Size)
    (row_height : Nat) : Size :=
  let height := max (max s.default_widget_height row_height)
    (contentMinHeight s b iconSize)
  let w := contentWidth s b iconSize
  let width := if w < b.min_width then b.min_width else w
  { width := width, height := height }

/-- The size passed to `ui.allocate_space` (iconbutton.rs line 343):
`Size::new(size.width, max(size.height, height))`, where `size` was built
from `width` and `height`, so the inner max is over equal values. -/
def allocRequest {C : Type} (s : Style C) (b : IconButton) (iconSize : Size)
    (row_height : Nat) : Size :=
  let size := computeSize s b iconSize row_height
  { width := size.width, height := max size.height size.height }

/-- Modelled from the spec: the `Response` returned to the caller (§6):
allocated rectangle, clicked flag, down flag. -/
structure Response where
  area : Rectangle
  clicked : Bool
  down : Bool
deriving DecidableEq

/-- Per-frame inputs that come from collaborators outside the staged files:
the icon's intrinsic bounding-box size, the layout row height and cursor,
whether `allocate_space` succeeds (the remaining-area check lives in the
absent `ui` module and is modelled from the spec as a boolean), and the
frame's interaction outcome for the allocated rectangle. -/
structure DrawEnv where
  iconSize : Size
  row_height : Nat
  alloc_ok : Bool
  cursor : Point
  interaction : Interaction
deriving DecidableEq

/-- Whether the drawing sink accepts each primitive of the widget's draw
sequence and the closing `finalize` call (§6: each returns success or
failure). -/
structure Sink where
  rect_ok : Bool
  icon_ok : Bool
  text_ok : Bool
  finalize_ok : Bool
deriving DecidableEq

/-- A draw primitive issued to the sink, carrying the data the widget styles
it with (positions of icon and label inside the rectangle are centering
detail not modelled). -/
inductive Primitive (C : Type) where
  | roundedRect (area : Rectangle) (corner_radius : Nat) (style : PrimitiveStyle C)
  | iconImage (color : C)
  | textRun (color : C)
deriving DecidableEq

/-- The outcome of one `IconButton::draw` call: allocation failure
(`allocate_space` error propagated by `?`), a panic (the `.unwrap()` on the
label draw, line 480), a propagated drawing error (`ui.finalize()?`, line
483), or a returned `Response`. Each outcome carries the final value of the
borrowed smartstate cell and the primitives issued before the outcome. -/
inductive DrawOutcome (C : Type) where
  | allocErr (cell : Option Smartstate)
  | panicked (cell : Option Smartstate) (prims : List (Primitive C))
  | drawErr (cell : Option Smartstate) (prims : List (Primitive C))
  | ok (resp : Response) (cell : Option Smartstate) (prims : List (Primitive C))
deriving DecidableEq

/-- The borrowed cell's value when the draw call returns or unwinds. -/
def DrawOutcome.cellAfter {C : Type} : DrawOutcome C → Option Smartstate
  | .allocErr c => c
  | .panicked c _ => c
  | .drawErr c _ => c
  | .ok _ c _ => c

/-- The draw primitives issued to the sink during the call. -/
def DrawOutcome.prims {C : Type} : DrawOutcome C → List (Primitive C)
  | .allocErr _ => []
  | .panicked _ p => p
  | .drawErr _ p => p
  | .ok _ _ p => p

/-- Whether the call ended in the panic of iconbutton.rs line 480. -/
def DrawOutcome.isPanicked {C : Type} : DrawOutcome C → Bool
  | .panicked _ _ => true
  | _ => false

/-- Whether the call propagated a drawing-sink error (`ui.finalize()?`). -/
def DrawOutcome.isDrawErr {C : Type} : DrawOutcome C → Bool
  | .drawErr _ _ => true
  | _ => false

/-- The returned `Response`, when the call returned one. -/
def DrawOutcome.respOf {C : Type} : DrawOutcome C → Option Response
  | .ok r _ _ => some r
  | _ => none

/-- The `Response` built by `IconButton::draw` (iconbutton.rs lines 374-379
and 486-490): the allocated rectangle with `clicked` set on a `Release` and
`down` on a `Click` or `Drag`, both forced false when disabled. -/
def drawResponse {C : Type} (s : Style C) (b : IconButton) (env : DrawEnv) :
    Response :=
  let sz := computeSize s b env.iconSize env.row_height
  let area : Rectangle :=
    { top_left := env.cursor
      size := { width := sz.width, height := max sz.height sz.height } }
  if b.is_enabled then
    { area := area, clicked := env.interaction.isRelease
      down := env.interaction.isClickOrDrag }
  else
    { area := area, clicked := false, down := false }

/-- `IconButton::draw` (iconbutton.rs lines 290-491). In source order:
compute content size and allocate (`?` propagates allocation failure);
derive `click` and `down` from the interaction; clone the cell into
`prevstate`; resolve the context style; write the candidate smartstate code
into the cell (`Container::modify`) while selecting rectangle style and
foreground color; if the cell no longer equals `prevstate` (`eq_option`),
issue the rounded background rectangle and icon image — their sink results
are discarded by `.ok()` — then the label text whose sink failure is
`.unwrap()`ed into a panic, then `ui.finalize()?`; finally return the
response, with `clicked` and `down` forced false when disabled. -/
def iconButtonDraw {C : Type} (s : Style C) (b : IconButton) (env : DrawEnv)
    (sink : Sink) : DrawOutcome C :=
  let sz := computeSize s b env.iconSize env.row_height
  if env.alloc_ok then
    let area : Rectangle :=
      { top_left := env.cursor
        size := { width := sz.width, height := max sz.height sz.height } }
    let prevstate := b.smartstate
    let cs := resolveContextStyle s b.context
    let code := smartCode b.is_enabled b.is_modified env.interaction
    let cell := containerModify b.smartstate fun _ => Smartstate.state code
    let rstyle := rectStyleFor cs b.is_enabled env.interaction
    let fg := fgColorFor cs b.is_enabled env.interaction
    let resp : Response := drawResponse s b env
    if eqOption cell prevstate then
      .ok resp cell []
    else
      match b.label with
      | some _ =>
        let prims := [Primitive.roundedRect area s.button_corner_radius rstyle,
          Primitive.iconImage fg, Primitive.textRun fg]
        if sink.text_ok then
          if sink.finalize_ok then .ok resp cell prims else .drawErr cell prims
        else
          .panicked cell prims
      | none =>
        let prims := [Primitive.roundedRect area s.button_corner_radius rstyle,
          Primitive.iconImage fg]
        if sink.finalize_ok then .ok resp cell prims else .drawErr cell prims
  else
    .allocErr b.smartstate

/-- Content-driven minimum height as the spec words it (§4.1): icon height
+ 2 x padding + 2 x border, plus padding + label height when a label is
present; stated independently of `contentMinHeight` for comparison. -/
def specContentMinHeight {C : Type} (s : Style C) (b : IconButton)
    (iconSize : Size) : Nat :=
  iconSize.height + 2 * s.spacing.button_padding.height
    + 2 * s.normal_widget.normal.border_width
    + (match b.label with
      | some lbl => s.spacing.button_padding.height + lbl.height
      | none => 0)

/-- A concrete context style over `Nat`-coded colors, for witnesses. -/
def testContextStyle (base : Nat) : WidgetContextStyle Nat :=
  { normal :=
      { border_width := 1, border_color := base, background_color := base + 1
        foreground_color := base + 2 }
    hover :=
      { border_width := 1, border_color := base + 3, background_color := base + 4
        foreground_color := base + 5 }
    active :=
      { border_width := 1, border_color := base + 6, background_color := base + 7
        foreground_color := base + 8 }
    disabled :=
      { border_width := 0, border_color := base + 9, background_color := base + 10
        foreground_color := base + 11 } }

/-- A concrete theme over `Nat`-coded colors with no primary or secondary
entry, for witnesses. -/
def testStyle : Style Nat :=
  { background_color := 0
    text_color := 100
    normal_widget := testContextStyle 10
    primary_widget := none
    secondary_widget := none
    default_widget_height := 16
    spacing :=
      { item_spacing := { width := 8, height := 4 }
        button_padding := { width := 5, height := 5 }
        default_padding := { width := 1, height := 1 }
        window_border_padding := { width := 3, height := 3 } }
    button_corner_radius := 3 }

/-- A concrete per-frame environment: a 12x12 icon at the origin on a fresh
row, with a successful allocation and the given interaction. -/
def testEnv (i : Interaction) : DrawEnv :=
  { iconSize := { width := 12, height := 12 }, row_height := 0
    alloc_ok := true, cursor := { x := 0, y := 0 }, interaction := i }

/-- A sink accepting every primitive and the finalize call. -/
def allOkSink : Sink :=
  { rect_ok := true, icon_ok := true, text_ok := true, finalize_ok := true }

/-- A sink whose `finalize` call fails. -/
def failFinalizeSink : Sink :=
  { rect_ok := true, icon_ok := true, text_ok := true, finalize_ok := false }

/-- A sink rejecting the styled-text primitive. -/
def failTextSink : Sink :=
  { rect_ok := true, icon_ok := true, text_ok := false, finalize_ok := true }

/-- C3 counterexample: the claim's universal statement fails — the disabled
tuples (disabled, unmodified, idle) and (disabled, unmodified, hover)
differ, yet both are assigned code 8 (iconbutton.rs line 449 ignores the
interaction when disabled). -/
theorem disabled_codes_collide :
    smartCodeB false false .idle = smartCodeB false false .hover
    ∧ (false, false, InteractionBucket.idle)
      ≠ (false, false, InteractionBucket.hover) := by
  decide

/-- C3 amended: two (enabled, modified, bucket) tuples receive equal codes
iff they agree on enabled and modified and, when enabled, also on the
interaction bucket — disabled tuples share one code per modified flag across
all buckets; the enabled assignment is idle to 2 (1 if modified), hover to 4
(3 if modified), active to 6 (5 if modified), and disabled to 8 (7 if
modified) regardless of interaction. -/
theorem smartcode_diff_amended :
    (∀ e1 m1 b1 e2 m2 b2, smartCodeB e1 m1 b1 = smartCodeB e2 m2 b2
      ↔ (e1 = e2 ∧ m1 = m2 ∧ (e1 = true → b1 = b2)))
    ∧ (∀ m, smartCodeB true m .idle = if m then 1 else 2)
    ∧ (∀ m, smartCodeB true m .hover = if m then 3 else 4)
    ∧ (∀ m, smartCodeB true m .active = if m then 5 else 6)
    ∧ (∀ m bk, smartCodeB false m bk = if m then 7 else 8) := by
  decide

/-- C7: the width of the computed size (the width requested from and granted
by the allocator) is exactly `min_width` when `min_width` exceeds the
content-driven width, and the content-driven width unchanged otherwise
(iconbutton.rs lines 327-329); the default `min_width` of 0 never exceeds
any content width, so it means automatic sizing. -/
theorem width_override_precedence {C : Type} (s : Style C) (b : IconButton)
    (iconSize : Size) (row_height : Nat) :
    (contentWidth s b iconSize < b.min_width →
      (computeSize s b iconSize row_height).width = b.min_width)
    ∧ (b.min_width ≤ contentWidth s b iconSize →
      (computeSize s b iconSize row_height).width = contentWidth s b iconSize) := by
  constructor
  · intro h
    simp [computeSize, h]
  · intro h
    simp [computeSize, Nat.not_lt.mpr h]

/-- C7 witness: a 12x12 icon without label has content width 24 under
`testStyle`; a `min_width` of 100 overrides it and a `min_width` of 7 leaves
it unchanged. -/
theorem width_override_precedence_witness :
    (computeSize testStyle (IconButton.new.expand_width 100)
      { width := 12, height := 12 } 0).width = 100
    ∧ (computeSize testStyle (IconButton.new.expand_width 7)
      { width := 12, height := 12 } 0).width
      = contentWidth testStyle (IconButton.new.expand_width 7)
        { width := 12, height := 12 } :=
  ⟨(width_override_precedence testStyle (IconButton.new.expand_width 100)
      { width := 12, height := 12 } 0).1 (by decide),
    (width_override_precedence testStyle (IconButton.new.expand_width 7)
      { width := 12, height := 12 } 0).2 (by decide)⟩

/-- C8: the height requested from the allocator equals the max of the style
default widget height, the current row height, and the content-driven
minimum height as the spec words it (iconbutton.rs lines 302-343). -/
theorem alloc_height_formula {C : Type} (s : Style C) (b : IconButton)
    (iconSize : Size) (row_height : Nat) :
    (allocRequest s b iconSize row_height).height
      = max s.default_widget_height
          (max row_height (specContentMinHeight s b iconSize)) := by
  cases hl : b.label <;>
    simp [allocRequest, computeSize, contentMinHeight, specContentMinHeight, hl,
      max_self, max_assoc, Nat.add_assoc]

/-- C9: when the theme has no entry for the Primary (or Secondary) context,
style resolution falls back to the Normal context's `normal_widget`
(iconbutton.rs lines 384-388), so for every enabled flag and interaction
outcome the background-rectangle style and foreground color equal the ones
the Normal entry would give. -/
theorem context_fallback_normal {C : Type} (s : Style C) :
    (s.primary_widget = none →
      resolveContextStyle s .primary = s.normal_widget
      ∧ ∀ e i, rectStyleFor (resolveContextStyle s .primary) e i
            = rectStyleFor s.normal_widget e i
        ∧ fgColorFor (resolveContextStyle s .primary) e i
            = fgColorFor s.normal_widget e i)
    ∧ (s.secondary_widget = none →
      resolveContextStyle s .secondary = s.normal_widget
      ∧ ∀ e i, rectStyleFor (resolveContextStyle s .secondary) e i
            = rectStyleFor s.normal_widget e i
        ∧ fgColorFor (resolveContextStyle s .secondary) e i
            = fgColorFor s.normal_widget e i) := by
  constructor
  · intro h
    have hc : resolveContextStyle s .primary = s.normal_widget := by
      simp [resolveContextStyle, h]
    exact ⟨hc, fun e i => by rw [hc]; exact ⟨rfl, rfl⟩⟩
  · intro h
    have hc : resolveContextStyle s .secondary = s.normal_widget := by
      simp [resolveContextStyle, h]
    exact ⟨hc, fun e i => by rw [hc]; exact ⟨rfl, rfl⟩⟩

/-- C9 witness: `testStyle` has no primary and no secondary entry; both
contexts resolve to its `normal_widget`. -/
theorem context_fallback_normal_witness :
    resolveContextStyle testStyle .primary = testStyle.normal_widget
    ∧ resolveContextStyle testStyle .secondary = testStyle.normal_widget :=
  ⟨((context_fallback_normal testStyle).1 rfl).1,
    ((context_fallback_normal testStyle).2 rfl).1⟩

/-- C10: `expand_width`, `enable` and `context` set the modified flag
unconditionally — also when passed the current or default value — while
`label` and `smartstate` leave it (and hence the computed smartstate code)
unchanged (iconbutton.rs lines 162-165, 234-237, 246-276). -/
theorem builder_modified_flags (b : IconButton) (w : Nat) (e : Bool)
    (c : WidgetContext) (l : Size) (st : Smartstate) :
    (b.expand_width w).is_modified = true
    ∧ (b.enable e).is_modified = true
    ∧ (b.context' c).is_modified = true
    ∧ (b.label' l).is_modified = b.is_modified
    ∧ (b.smartstate' st).is_modified = b.is_modified
    ∧ (∀ i, smartCode (b.label' l).is_enabled (b.label' l).is_modified i
        = smartCode b.is_enabled b.is_modified i)
    ∧ (∀ i, smartCode (b.smartstate' st).is_enabled (b.smartstate' st).is_modified i
        = smartCode b.is_enabled b.is_modified i) :=
  ⟨rfl, rfl, rfl, rfl, rfl, fun _ => rfl, fun _ => rfl⟩

/-- The redraw gate of iconbutton.rs line 467: after `Container::modify`
wrote the candidate code, `eq_option` against the cloned previous value is
false exactly when the container is empty or the cell did not already hold
the candidate code (an `Unset` cell compares unequal to everything). -/
theorem eqOption_modify_iff (cell : Option Smartstate) (code : Nat) :
    (eqOption (containerModify cell fun _ => Smartstate.state code) cell = false
      ↔ (cell = none ∨ cell ≠ some (Smartstate.state code))) := by
  cases cell with
  | none => simp [eqOption, containerModify]
  | some st =>
    cases st with
    | unset => simp [eqOption, containerModify, Smartstate.eqState]
    | state c =>
      simp only [eqOption, containerModify, Option.map_some', Smartstate.eqState,
        beq_eq_false_iff_ne, ne_eq, Option.some.injEq, Smartstate.state.injEq,
        reduceCtorEq, false_or]

/-- C1: given a successful allocation, the draw call issues at least one
primitive iff the container is empty or the borrowed cell did not already
store the candidate code; an empty container forces drawing every frame and
an unchanged code in a non-empty cell issues zero draw calls
(iconbutton.rs lines 467-484). -/
theorem iconbutton_gate_iff {C : Type} (s : Style C) (b : IconButton)
    (env : DrawEnv) (sink : Sink) (h : env.alloc_ok = true) :
    ((iconButtonDraw s b env sink).prims ≠ []
      ↔ (b.smartstate = none
        ∨ b.smartstate ≠ some (Smartstate.state
            (smartCode b.is_enabled b.is_modified env.interaction)))) := by
  rw [← eqOption_modify_iff b.smartstate
    (smartCode b.is_enabled b.is_modified env.interaction)]
  by_cases hgate : eqOption (containerModify b.smartstate fun _ =>
      Smartstate.state (smartCode b.is_enabled b.is_modified env.interaction))
      b.smartstate = true
  · simp [iconButtonDraw, h, hgate, DrawOutcome.prims]
  · rw [Bool.not_eq_true] at hgate
    have hne : (iconButtonDraw s b env sink).prims ≠ [] := by
      rcases hl : b.label with _ | lbl <;>
        rcases ht : sink.text_ok <;>
        rcases hf : sink.finalize_ok <;>
        simp [iconButtonDraw, h, hgate, hl, ht, hf, DrawOutcome.prims]
    simp [hne, hgate]

/-- C1 witness: under `testStyle`, an empty container draws (two primitives
for a label-free button), a borrowed cell holding the candidate code 2
issues zero primitives, and a cell holding a different code draws. -/
theorem iconbutton_gate_iff_witness :
    ((iconButtonDraw testStyle IconButton.new (testEnv Interaction.none)
        allOkSink).prims ≠ []
      ↔ ((IconButton.new : IconButton).smartstate = none
        ∨ (IconButton.new : IconButton).smartstate
          ≠ some (Smartstate.state (smartCode true false Interaction.none))))
    ∧ (iconButtonDraw testStyle (IconButton.new.smartstate' (Smartstate.state 2))
        (testEnv Interaction.none) allOkSink).prims = []
    ∧ (iconButtonDraw testStyle (IconButton.new.smartstate' (Smartstate.state 6))
        (testEnv Interaction.none) allOkSink).prims ≠ [] :=
  ⟨iconbutton_gate_iff testStyle IconButton.new (testEnv Interaction.none)
      allOkSink rfl,
    by decide, by decide⟩

/-- C5: whenever the draw call returns a `Response`, its `clicked` flag is
true iff the widget is enabled and the interaction is a `Release`, and its
`down` flag is true iff the widget is enabled and the interaction is a
`Click` or a `Drag`; a disabled widget reports both false (iconbutton.rs
lines 374-379 and 486-490). -/
theorem response_click_down {C : Type} (s : Style C) (b : IconButton)
    (env : DrawEnv) (sink : Sink) (r : Response)
    (h : (iconButtonDraw s b env sink).respOf = some r) :
    r.clicked = (b.is_enabled && env.interaction.isRelease)
    ∧ r.down = (b.is_enabled && env.interaction.isClickOrDrag) := by
  have hr : drawResponse s b env = r := by
    rcases hl : b.label with _ | lbl <;>
      rcases ht : sink.text_ok <;>
      rcases hf : sink.finalize_ok <;>
      rcases hgate : eqOption (containerModify b.smartstate fun _ =>
        Smartstate.state (smartCode b.is_enabled b.is_modified env.interaction))
        b.smartstate <;>
      rcases ha : env.alloc_ok <;>
      simp [iconButtonDraw, ha, hl, ht, hf, hgate, DrawOutcome.respOf] at h <;>
      exact h
  rw [← hr]
  unfold drawResponse
  cases he : b.is_enabled <;> simp [he]

/-- C5 witness: a release on an enabled button under `testStyle` yields a
response with `clicked` true and `down` false. -/
theorem response_click_down_witness :
    (Response.mk (Rectangle.mk (Point.mk 0 0) (Size.mk 24 24)) true false).clicked
      = (true && (Interaction.release (Point.mk 1 1)).isRelease)
    ∧ (Response.mk (Rectangle.mk (Point.mk 0 0) (Size.mk 24 24)) true false).down
      = (true && (Interaction.release (Point.mk 1 1)).isClickOrDrag) :=
  response_click_down testStyle IconButton.new
    (testEnv (Interaction.release (Point.mk 1 1))) allOkSink
    (Response.mk (Rectangle.mk (Point.mk 0 0) (Size.mk 24 24)) true false)
    (by decide)

/-- C2 evaluation: a borrowed cell holds code 2; the hover frame computes
candidate 4 and the sink's `finalize` fails; the error propagates but the
cell already holds the candidate 4 (the `Container::modify` calls of
iconbutton.rs lines 394-449 run before any drawing), not its pre-frame
value 2 — the failed redraw is falsely cached. -/
theorem failed_finalize_poisons_cache :
    ((iconButtonDraw testStyle (IconButton.new.smartstate' (Smartstate.state 2))
        (testEnv (Interaction.hover { x := 1, y := 1 }))
        failFinalizeSink).isDrawErr = true)
    ∧ (iconButtonDraw testStyle (IconButton.new.smartstate' (Smartstate.state 2))
        (testEnv (Interaction.hover { x := 1, y := 1 }))
        failFinalizeSink).cellAfter = some (Smartstate.state 4)
    ∧ (iconButtonDraw testStyle (IconButton.new.smartstate' (Smartstate.state 2))
        (testEnv (Interaction.hover { x := 1, y := 1 }))
        failFinalizeSink).cellAfter ≠ some (Smartstate.state 2) := by
  decide

/-- C6 evaluation: a labelled button whose sink rejects the styled-text
primitive ends in a panic — the `.unwrap()` of iconbutton.rs line 480 —
instead of a reported error value. -/
theorem label_draw_failure_panics :
    (iconButtonDraw testStyle
        (IconButton.new.label' { width := 20, height := 15 })
        (testEnv Interaction.none) failTextSink).isPanicked = true := by
  decide

/-- An RGB565 color by its channel values (5-bit red, 6-bit green, 5-bit
blue), for embedding the theme of style.rs. -/
structure Rgb565 where
  r : Nat
  g : Nat
  b : Nat
deriving DecidableEq

/-- Channel scaling used by embedded-graphics when converting an 8-bit
channel to a narrower one: scale to the new maximum, rounding to nearest. -/
def convertChannel (value to_max from_max : Nat) : Nat :=
  (value * to_max + from_max / 2) / from_max

/-- `Rgb565::from(Rgb888::new(r, g, b))`. -/
def Rgb565.from888 (r g b : Nat) : Rgb565 :=
  { r := convertChannel r 31 255, g := convertChannel g 63 255
    b := convertChannel b 31 255 }

/-- `Rgb565::WHITE`: all channels at their maximum. -/
def Rgb565.white : Rgb565 := { r := 31, g := 63, b := 31 }

/-- `Rgb565::CSS_BLACK`. -/
def Rgb565.cssBlack : Rgb565 := { r := 0, g := 0, b := 0 }

/-- `Rgb565::CSS_LIGHT_GRAY` (the web color 211, 211, 211). -/
def Rgb565.cssLightGray : Rgb565 := Rgb565.from888 211 211 211

/-- `Rgb565::CSS_DARK_GRAY` (the web color 169, 169, 169). -/
def Rgb565.cssDarkGray : Rgb565 := Rgb565.from888 169 169 169

/-- `medsize_bootstrap_rgb565_style` (style.rs lines 521-613), the one
theme the repository defines outside comments; its primary and secondary
entries are wrapped in `some` per the `Option` reading of the theme fields
(see `Style`). -/
def bootstrapStyle : Style Rgb565 :=
  { background_color := Rgb565.cssBlack
    text_color := Rgb565.white
    normal_widget :=
      { normal :=
          { border_width := 1, border_color := Rgb565.white
            background_color := Rgb565.cssBlack
            foreground_color := Rgb565.white }
        hover :=
          { border_width := 1, border_color := Rgb565.white
            background_color := Rgb565.cssLightGray
            foreground_color := Rgb565.cssBlack }
        active :=
          { border_width := 0, border_color := Rgb565.white
            background_color := Rgb565.white
            foreground_color := Rgb565.cssBlack }
        disabled :=
          { border_width := 1, border_color := Rgb565.cssDarkGray
            background_color := Rgb565.cssBlack
            foreground_color := Rgb565.cssDarkGray } }
    primary_widget := some
      { normal :=
          { border_width := 0, border_color := Rgb565.from888 13 110 253
            background_color := Rgb565.from888 13 110 253
            foreground_color := Rgb565.white }
        hover :=
          { border_width := 0, border_color := Rgb565.from888 11 94 215
            background_color := Rgb565.from888 11 94 215
            foreground_color := Rgb565.white }
        active :=
          { border_width := 0, border_color := Rgb565.from888 10 88 202
            background_color := Rgb565.from888 10 88 202
            foreground_color := Rgb565.white }
        disabled :=
          { border_width := 0, border_color := Rgb565.from888 19 84 179
            background_color := Rgb565.from888 19 84 179
            foreground_color := Rgb565.cssLightGray } }
    secondary_widget := some
      { normal :=
          { border_width := 0, border_color := Rgb565.from888 108 117 125
            background_color := Rgb565.from888 108 117 125
            foreground_color := Rgb565.white }
        hover :=
          { border_width := 0, border_color := Rgb565.from888 92 99 106
            background_color := Rgb565.from888 92 99 106
            foreground_color := Rgb565.white }
        active :=
          { border_width := 0, border_color := Rgb565.from888 10 88 202
            background_color := Rgb565.from888 10 88 202
            foreground_color := Rgb565.white }
        disabled :=
          { border_width := 0, border_color := Rgb565.from888 81 89 95
            background_color := Rgb565.from888 81 89 95
            foreground_color := Rgb565.from888 177 179 180 } }
    default_widget_height := 16
    spacing :=
      { item_spacing := { width := 8, height := 4 }
        button_padding := { width := 5, height := 5 }
        default_padding := { width := 1, height := 1 }
        window_border_padding := { width := 3, height := 3 } }
    button_corner_radius := 5 }

/-- C4 evaluation: the smartstate code ignores the style context. A frame
built with `.context(Primary)` and a frame built with `.context(Normal)`
(both builder calls set the modified flag) compute the same code 1 for an
idle enabled widget, although under the repository's bootstrap theme the
Primary and Normal context styles — including the resolved background
rectangle style and the hover styles — differ. A cell left at code 1 by the
Primary frame therefore makes the Normal frame issue zero primitives: a
false skip leaving stale pixels. -/
theorem context_ignored_false_skip :
    smartCode (IconButton.new.context' WidgetContext.primary).is_enabled
        (IconButton.new.context' WidgetContext.primary).is_modified
        Interaction.none
      = smartCode (IconButton.new.context' WidgetContext.normal).is_enabled
        (IconButton.new.context' WidgetContext.normal).is_modified
        Interaction.none
    ∧ resolveContextStyle bootstrapStyle WidgetContext.primary
      ≠ resolveContextStyle bootstrapStyle WidgetContext.normal
    ∧ rectStyleFor (resolveContextStyle bootstrapStyle WidgetContext.primary)
        true Interaction.none
      ≠ rectStyleFor (resolveContextStyle bootstrapStyle WidgetContext.normal)
        true Interaction.none
    ∧ rectStyleFor (resolveContextStyle bootstrapStyle WidgetContext.primary)
        true (Interaction.hover (Point.mk 1 1))
      ≠ rectStyleFor (resolveContextStyle bootstrapStyle WidgetContext.normal)
        true (Interaction.hover (Point.mk 1 1))
    ∧ (iconButtonDraw bootstrapStyle
        ((IconButton.new.context' WidgetContext.normal).smartstate'
          (Smartstate.state 1))
        (testEnv Interaction.none) allOkSink).prims = [] := by
  decide

end Kolibri
